import Mathlib

/-!
Shallow embedding of the API gateway found in
`services/api-gateway/app/auth.py` and `services/api-gateway/app/main.py`.

The Python program is a FastAPI gateway: `auth.py` holds a lazily seeded
in-memory user store, argon2 password verification, JWT issuance and
verification, and the bearer-token request guard; `main.py` holds the
retrying HTTP forwarder towards the upstream order service, a process-local
order cache, and the route handlers.

Modelling conventions:
- Timestamps and time deltas are `Int` seconds (`datetime.utcnow()` becomes an
  explicit `now : Int` parameter; `timedelta(minutes=m)` becomes `m * 60`).
- The mutable module-level dictionaries (`_users_cache` in `auth.py`,
  `_local_cache` in `main.py`) become explicit state threaded through the
  functions, represented as insertion-ordered association lists with the
  lookup/assignment semantics of a Python `dict`.
- A JWT is represented structurally: its claims (`sub`, `exp`) plus the key it
  was signed with; `jwt.decode` succeeds exactly when the verification key
  equals the signing key and the token is not expired (python-jose raises
  `ExpiredSignatureError`, a `JWTError`, when `exp < now`).
- The external argon2 primitive (passlib) is out of scope for the repository;
  it is modelled as an injective tagging so that `pwd_context.verify`
  succeeds exactly on the matching password (the ideal-hash assumption).
- The network is modelled as a function from the attempt index to what that
  connection attempt produces: a connection-level failure
  (`httpx.ConnectTimeout` / `httpx.ConnectError`) with its message, or an
  HTTP response. Both call sites of the retry helper use the literal verbs
  `"POST"` and `"GET"`, so the method dispatch never reaches the
  unsupported-method branch and is not modelled separately.
-/

/-! ### auth.py -/

/-- The `JWT_SECRET` fallback used when the environment variable is unset
(`SECRET_KEY = os.getenv("JWT_SECRET", ...)`). -/
def SECRET_KEY : String := "your-secret-key-change-this-in-production"

/-- Module constant `ACCESS_TOKEN_EXPIRE_MINUTES = 30`. -/
def ACCESS_TOKEN_EXPIRE_MINUTES : Int := 30

/-- Model of the external passlib argon2 primitive (`pwd_context.hash`),
declared out of scope by the spec: an injective tagging of the password, so
that verification succeeds exactly on the matching password. -/
def get_password_hash (password : String) : String :=
  "$argon2id$" ++ password

/-- Source `verify_password(plain_password, hashed_password)`:
`pwd_context.verify(plain, hashed)` under the ideal-hash model. -/
def verify_password (plain_password hashed_password : String) : Bool :=
  get_password_hash plain_password == hashed_password

/-- Source pydantic model `UserInDB` (`User` plus `hashed_password`). -/
structure UserInDB where
  user_id : String
  username : String
  hashed_password : String
  disabled : Bool
deriving DecidableEq, Repr

/-- One raw entry of the `_initial_users` dictionary. -/
structure RawSeedUser where
  user_id : String
  username : String
  password : String
  disabled : Bool
deriving DecidableEq, Repr

/-- Source module dictionary `_initial_users`. -/
def _initial_users : List (String × RawSeedUser) :=
  [("testuser", { user_id := "u1", username := "testuser",
                  password := "secret", disabled := false }),
   ("admin", { user_id := "u2", username := "admin",
               password := "admin123", disabled := false })]

/-- The state of the module dictionary `_users_cache`, as an
insertion-ordered association list. -/
abbrev UsersCache := List (String × UserInDB)

/-- Python `d.get(k)` on an association list. -/
def dictGet {β : Type} (m : List (String × β)) (k : String) : Option β :=
  (m.find? (fun p => p.1 == k)).map (fun p => p.2)

/-- Python `d[k] = v`: replaces in place if the key exists, else appends
(preserving the insertion order of a Python dict). -/
def dictInsert {β : Type} (m : List (String × β)) (k : String) (v : β) :
    List (String × β) :=
  if (m.find? (fun p => p.1 == k)).isSome then
    m.map (fun p => if p.1 == k then (k, v) else p)
  else
    m ++ [(k, v)]

/-- The contents of `_users_cache` right after the seeding loop in
`get_user` has run: each `_initial_users` entry with its password hashed. -/
def seedUsers : UsersCache :=
  _initial_users.map (fun p =>
    (p.1, { user_id := p.2.user_id, username := p.2.username,
            hashed_password := get_password_hash p.2.password,
            disabled := p.2.disabled }))

/-- Source `get_user(username)`: seeds `_users_cache` from `_initial_users`
on first access (`if not _users_cache and _initial_users:`), then returns
`_users_cache.get(username)`. Returns the new cache state and the lookup. -/
def get_user (cache : UsersCache) (username : String) :
    UsersCache × Option UserInDB :=
  let cache := if cache.isEmpty && !_initial_users.isEmpty then seedUsers else cache
  (cache, dictGet cache username)

/-- Source `authenticate_user(username, password)`. -/
def authenticate_user (cache : UsersCache) (username password : String) :
    UsersCache × Option UserInDB :=
  let r := get_user cache username
  match r.2 with
  | none => (r.1, none)
  | some user =>
    if verify_password password user.hashed_password then (r.1, some user)
    else (r.1, none)

/-- Structural model of an encoded JWT: the claims that `create_access_token`
puts in the payload (`sub` from the data dict, `exp`), plus the signing key. -/
structure JWT where
  sub : Option String
  exp : Int
  key : String
deriving DecidableEq, Repr

/-- Source `create_access_token(data, expires_delta)`. `data` is modelled by
its only used key, `sub`; `now` is `datetime.utcnow()` in seconds. Note the
Python truthiness test `if expires_delta:` treats `timedelta(0)` like `None`,
falling back to the 15-minute default. -/
def create_access_token (sub : Option String) (now : Int)
    (expires_delta : Option Int) : JWT :=
  let expire : Int :=
    match expires_delta with
    | some d => if d = 0 then now + 15 * 60 else now + d
    | none => now + 15 * 60
  { sub := sub, exp := expire, key := SECRET_KEY }

/-- The decoded payload produced by `jwt.decode`. -/
structure TokenPayload where
  sub : Option String
  exp : Int
deriving DecidableEq, Repr

/-- Model of `jwt.decode(token, secret, algorithms=[ALGORITHM])`: fails
(raises `JWTError`, collapsed to `none`) when the verification key differs
from the signing key or when the token is expired (`exp < now`). -/
def jwt_decode (tok : JWT) (secret : String) (now : Int) : Option TokenPayload :=
  if tok.key = secret then
    if tok.exp < now then none else some { sub := tok.sub, exp := tok.exp }
  else none

/-- Model of `fastapi.HTTPException`: status code, detail string and the
optional `WWW-Authenticate` header value. -/
structure HTTPEx where
  status : Nat
  detail : String
  wwwAuthenticate : Option String
deriving DecidableEq, Repr

deriving instance DecidableEq for Except

/-- The `credentials_exception` built in `get_current_user`. -/
def credentials_exception : HTTPEx :=
  { status := 401, detail := "Could not validate credentials",
    wwwAuthenticate := some "Bearer" }

/-- Source dependency `get_current_user(credentials)`: decodes the bearer
token, reads `payload.get("sub")`, and resolves it through `get_user`.
Returns the (possibly lazily seeded) user-store state and the outcome. -/
def get_current_user (users : UsersCache) (tok : JWT) (now : Int) :
    UsersCache × Except HTTPEx UserInDB :=
  match jwt_decode tok SECRET_KEY now with
  | none => (users, Except.error credentials_exception)
  | some payload =>
    match payload.sub with
    | none => (users, Except.error credentials_exception)
    | some user_id =>
      let r := get_user users user_id
      match r.2 with
      | none => (r.1, Except.error credentials_exception)
      | some u => (r.1, Except.ok u)

/-- Source dependency `get_current_active_user(current_user)`: rejects a
disabled user with `HTTPException(400, "Inactive user")`. -/
def get_current_active_user (users : UsersCache) (tok : JWT) (now : Int) :
    UsersCache × Except HTTPEx UserInDB :=
  let r := get_current_user users tok now
  match r.2 with
  | Except.error e => (r.1, Except.error e)
  | Except.ok u =>
    if u.disabled then
      (r.1, Except.error { status := 400, detail := "Inactive user",
                           wwwAuthenticate := none })
    else (r.1, Except.ok u)

/-- Source route `POST /auth/login`: authenticates and issues a token with
`expires_delta = timedelta(minutes=ACCESS_TOKEN_EXPIRE_MINUTES)`. -/
def login (users : UsersCache) (username password : String) (now : Int) :
    UsersCache × Except HTTPEx JWT :=
  let r := authenticate_user users username password
  match r.2 with
  | none =>
    (r.1, Except.error { status := 401, detail := "Incorrect username or password",
                         wwwAuthenticate := some "Bearer" })
  | some user =>
    (r.1, Except.ok (create_access_token (some user.username) now
      (some (ACCESS_TOKEN_EXPIRE_MINUTES * 60))))

/-! ### main.py -/

/-- Source pydantic model `OrderCreate`. -/
structure OrderCreate where
  user_id : String
  item : String
  amount : Int
deriving DecidableEq, Repr

/-- Source pydantic model `OrderStatus`. -/
structure OrderStatus where
  id : String
  status : String
  item : String
  amount : Int
  user_id : String
  updated_at : String
deriving DecidableEq, Repr

/-- An `httpx.Response` as observed by this program: its status code, its
raw text, and, when the body parses as an `OrderStatus`-shaped JSON object,
that parse (`resp.json()` fed to `OrderStatus(**data)`). -/
structure HttpResp where
  status_code : Nat
  text : String
  jsonBody : Option OrderStatus
deriving DecidableEq, Repr

/-- What one connection attempt against the upstream produces: a
connection-establishment failure (`httpx.ConnectTimeout` or
`httpx.ConnectError`) with its message, or an HTTP response. -/
inductive AttemptOutcome where
  | connectFail (reason : String)
  | response (r : HttpResp)
deriving DecidableEq, Repr

/-- Whether an attempt outcome is a connection-level failure. -/
def isConnectFail : AttemptOutcome → Bool
  | AttemptOutcome.connectFail _ => true
  | AttemptOutcome.response _ => false

/-- The failure message of a connection-level failure (`str(e)`). -/
def failReason : AttemptOutcome → String
  | AttemptOutcome.connectFail reason => reason
  | AttemptOutcome.response _ => ""

/-- The response carried by a non-failing attempt outcome. -/
def respOf : AttemptOutcome → HttpResp
  | AttemptOutcome.connectFail _ => { status_code := 0, text := "", jsonBody := none }
  | AttemptOutcome.response r => r

/-- Errors a route handler can produce: a `fastapi.HTTPException`, or a
pydantic `ValidationError` when an upstream 200 body does not parse as an
`OrderStatus`. -/
inductive GatewayError where
  | httpEx (e : HTTPEx)
  | validationError
deriving DecidableEq, Repr

/-- One iteration of the `for attempt in range(max_retries)` loop of
`_make_request_with_retry`, recursing on the number of remaining loop
iterations (`attempt` is the absolute attempt index). Returns the outcome,
the total number of connection attempts made so far when the call returns,
and the list of back-off sleep durations (seconds, `1.0 * (attempt + 1)`)
performed from this point on. -/
def retryAux (upstream : Nat → AttemptOutcome) (attempt : Nat) :
    Nat → Except HTTPEx HttpResp × Nat × List Nat
  | 0 =>
    (Except.error { status := 503, detail := "Service unavailable after retries",
                    wwwAuthenticate := none }, attempt, [])
  | remaining + 1 =>
    match upstream attempt with
    | AttemptOutcome.response r => (Except.ok r, attempt + 1, [])
    | AttemptOutcome.connectFail reason =>
      if remaining = 0 then
        (Except.error { status := 503,
                        detail := "Service unavailable: " ++ reason,
                        wwwAuthenticate := none }, attempt + 1, [])
      else
        let r := retryAux upstream (attempt + 1) remaining
        (r.1, r.2.1, (attempt + 1) :: r.2.2)

/-- Source `_make_request_with_retry(method, url, max_retries, ...)`: runs
the retry loop from attempt 0. The network is abstracted as the function
from attempt indices to attempt outcomes. -/
def _make_request_with_retry (upstream : Nat → AttemptOutcome)
    (max_retries : Nat) : Except HTTPEx HttpResp × Nat × List Nat :=
  retryAux upstream 0 max_retries

/-- Source `create_order_via_http(order)`: forwards `POST /orders` with the
default `max_retries = 3`; a non-200 response becomes
`HTTPException(resp.status_code, resp.text)`, a 200 response is parsed as an
`OrderStatus`. -/
def create_order_via_http (upstream : Nat → AttemptOutcome)
    (_order : OrderCreate) : Except GatewayError OrderStatus :=
  match (_make_request_with_retry upstream 3).1 with
  | Except.error e => Except.error (GatewayError.httpEx e)
  | Except.ok resp =>
    if resp.status_code ≠ 200 then
      Except.error (GatewayError.httpEx
        { status := resp.status_code, detail := resp.text, wwwAuthenticate := none })
    else
      match resp.jsonBody with
      | some s => Except.ok s
      | none => Except.error GatewayError.validationError

/-- Source `fetch_order_status(order_id)`: forwards `GET /orders/{id}` with
the default `max_retries = 3`; 404 becomes `None`, other non-200 becomes
`HTTPException(resp.status_code, resp.text)`, 200 is parsed. -/
def fetch_order_status (upstream : Nat → AttemptOutcome) :
    Except GatewayError (Option OrderStatus) :=
  match (_make_request_with_retry upstream 3).1 with
  | Except.error e => Except.error (GatewayError.httpEx e)
  | Except.ok resp =>
    if resp.status_code = 404 then Except.ok none
    else if resp.status_code ≠ 200 then
      Except.error (GatewayError.httpEx
        { status := resp.status_code, detail := resp.text, wwwAuthenticate := none })
    else
      match resp.jsonBody with
      | some s => Except.ok (some s)
      | none => Except.error GatewayError.validationError

/-- The mutable module state of the gateway process: `_users_cache` from
`auth.py` and `_local_cache` from `main.py`. -/
structure GatewayState where
  users : UsersCache
  cache : List (String × OrderStatus)
deriving DecidableEq, Repr

/-- Source route `GET /auth/me`: the guard, then the user. Returns the
outcome and the new state. -/
def read_users_me (st : GatewayState) (tok : JWT) (now : Int) :
    Except HTTPEx UserInDB × GatewayState :=
  let g := get_current_active_user st.users tok now
  (g.2, { st with users := g.1 })

/-- Source route `POST /orders`: guard, forward the create, then
`_local_cache[created.id] = created`. The last component counts the
invocations of the upstream forwarder (`_make_request_with_retry`). -/
def create_order (upstream : Nat → AttemptOutcome) (order : OrderCreate)
    (st : GatewayState) (tok : JWT) (now : Int) :
    Except GatewayError OrderStatus × GatewayState × Nat :=
  let g := get_current_active_user st.users tok now
  match g.2 with
  | Except.error e => (Except.error (GatewayError.httpEx e), { st with users := g.1 }, 0)
  | Except.ok _ =>
    match create_order_via_http upstream order with
    | Except.error e => (Except.error e, { st with users := g.1 }, 1)
    | Except.ok created =>
      (Except.ok created,
       { users := g.1, cache := dictInsert st.cache created.id created }, 1)

/-- Source route `GET /orders/{order_id}`: guard; cached value if present;
otherwise fetch, map `None` to `HTTPException(404, "Order not found")`, and
on a found status `_local_cache[order_id] = status`. The last component
counts the invocations of the upstream forwarder. -/
def get_order (upstream : Nat → AttemptOutcome) (order_id : String)
    (st : GatewayState) (tok : JWT) (now : Int) :
    Except GatewayError OrderStatus × GatewayState × Nat :=
  let g := get_current_active_user st.users tok now
  match g.2 with
  | Except.error e => (Except.error (GatewayError.httpEx e), { st with users := g.1 }, 0)
  | Except.ok _ =>
    match dictGet st.cache order_id with
    | some s => (Except.ok s, { st with users := g.1 }, 0)
    | none =>
      match fetch_order_status upstream with
      | Except.error e => (Except.error e, { st with users := g.1 }, 1)
      | Except.ok none =>
        (Except.error (GatewayError.httpEx
          { status := 404, detail := "Order not found", wwwAuthenticate := none }),
         { st with users := g.1 }, 1)
      | Except.ok (some s) =>
        (Except.ok s, { users := g.1, cache := dictInsert st.cache order_id s }, 1)

/-! ### Concrete fixtures used in witnesses and counterexamples -/

/-- The seeded record of username `testuser`. -/
def userU1 : UserInDB :=
  { user_id := "u1", username := "testuser",
    hashed_password := get_password_hash "secret", disabled := false }

/-- A token for `testuser` signed with the configured secret, expiring at
time 3600. -/
def tokTestuser : JWT := { sub := some "testuser", exp := 3600, key := SECRET_KEY }

/-- A disabled user record. -/
def disabledUser : UserInDB :=
  { user_id := "u9", username := "bob",
    hashed_password := get_password_hash "pw", disabled := true }

/-- A token for the disabled user, signed with the configured secret. -/
def tokBob : JWT := { sub := some "bob", exp := 3600, key := SECRET_KEY }

/-- Gateway state after user-store initialization, with an empty order
cache. -/
def stSeeded : GatewayState := { users := seedUsers, cache := [] }

/-- Gateway state whose user store holds one disabled user. -/
def stDisabled : GatewayState := { users := [("bob", disabledUser)], cache := [] }

/-- A concrete upstream order body. -/
def orderO1 : OrderStatus :=
  { id := "o1", status := "created", item := "widget", amount := 2,
    user_id := "u1", updated_at := "2024-01-01T00:00:00Z" }

/-- A concrete order-creation request body. -/
def orderCreate1 : OrderCreate := { user_id := "u1", item := "widget", amount := 2 }

/-- An upstream that always answers 200 with `orderO1`. -/
def upstream200 : Nat → AttemptOutcome :=
  fun _ => AttemptOutcome.response
    { status_code := 200, text := "ok-json", jsonBody := some orderO1 }

/-- An upstream that always answers 201 with `orderO1` (a 2xx status the
gateway does not treat as success). -/
def upstream201 : Nat → AttemptOutcome :=
  fun _ => AttemptOutcome.response
    { status_code := 201, text := "created-json", jsonBody := some orderO1 }

/-- An upstream that always answers 404. -/
def upstream404 : Nat → AttemptOutcome :=
  fun _ => AttemptOutcome.response
    { status_code := 404, text := "not found", jsonBody := none }

/-- An upstream whose first two connection attempts fail and whose third
returns a 502 response. -/
def c2Upstream : Nat → AttemptOutcome :=
  fun j =>
    if j < 2 then AttemptOutcome.connectFail ("connect refused " ++ toString j)
    else AttemptOutcome.response
      { status_code := 502, text := "bad gateway", jsonBody := none }

/-! ### Helper lemmas about the embedding -/

/-- Looking up a key just written by `dictInsert` returns the new value. -/
lemma dictGet_dictInsert_self {β : Type} (m : List (String × β)) (k : String)
    (v : β) : dictGet (dictInsert m k v) k = some v := by
  unfold dictInsert
  by_cases h : (m.find? (fun p => p.1 == k)).isSome
  · simp only [h, if_true, dictGet, List.find?_map]
    have hpred : ((fun p : String × β => p.1 == k) ∘
        (fun p => if p.1 == k then (k, v) else p))
        = fun p : String × β => p.1 == k := by
      funext p
      by_cases hp : p.1 == k
      · simp [Function.comp, hp]
      · simp [Function.comp, hp]
    obtain ⟨q, hq⟩ := Option.isSome_iff_exists.mp h
    rw [hpred, hq]
    have hqk := List.find?_some hq
    simp only at hqk
    have hk : q.1 = k := by simpa using hqk
    simp [hk]
  · rw [Option.not_isSome_iff_eq_none] at h
    simp [h, if_neg, dictGet, List.find?_append]

/-- The seeded user store is nonempty. -/
lemma seedUsers_ne_nil : seedUsers ≠ [] := by
  simp [seedUsers, _initial_users]

/-- The second component of `get_user` is the lookup in its first component. -/
lemma get_user_snd (us : UsersCache) (n : String) :
    (get_user us n).2 = dictGet (get_user us n).1 n := rfl

/-- A second `get_user` on the state produced by a first one no longer
re-seeds: the store is already nonempty. -/
lemma get_user_stable (us : UsersCache) (n m : String) :
    get_user (get_user us n).1 m = ((get_user us n).1, dictGet (get_user us n).1 m) := by
  cases us with
  | nil =>
    simp [get_user, seedUsers, _initial_users]
  | cons p t =>
    simp [get_user]

/-- A nonempty user store is not re-seeded by `get_user`. -/
lemma get_user_fst_of_ne_nil (us : UsersCache) (n : String) (h : us ≠ []) :
    (get_user us n).1 = us := by
  cases us with
  | nil => exact absurd rfl h
  | cons p t => simp [get_user]

/-- Computation rule for `get_current_user` when the token fails to decode. -/
lemma get_current_user_baddecode (us : UsersCache) (tok : JWT) (now : Int)
    (hd : jwt_decode tok SECRET_KEY now = none) :
    get_current_user us tok now = (us, Except.error credentials_exception) := by
  simp [get_current_user, hd]

/-- Computation rule for `get_current_user` when the payload has no `sub`. -/
lemma get_current_user_nosub (us : UsersCache) (tok : JWT) (now : Int)
    (payload : TokenPayload)
    (hd : jwt_decode tok SECRET_KEY now = some payload)
    (hs : payload.sub = none) :
    get_current_user us tok now = (us, Except.error credentials_exception) := by
  simp [get_current_user, hd, hs]

/-- Computation rule for `get_current_user` when the subject is unknown. -/
lemma get_current_user_nouser (us : UsersCache) (tok : JWT) (now : Int)
    (payload : TokenPayload) (uid : String)
    (hd : jwt_decode tok SECRET_KEY now = some payload)
    (hs : payload.sub = some uid)
    (hg : (get_user us uid).2 = none) :
    get_current_user us tok now =
      ((get_user us uid).1, Except.error credentials_exception) := by
  simp [get_current_user, hd, hs, hg]

/-- Computation rule for `get_current_user` when the subject resolves. -/
lemma get_current_user_found (us : UsersCache) (tok : JWT) (now : Int)
    (payload : TokenPayload) (uid : String) (u : UserInDB)
    (hd : jwt_decode tok SECRET_KEY now = some payload)
    (hs : payload.sub = some uid)
    (hg : (get_user us uid).2 = some u) :
    get_current_user us tok now = ((get_user us uid).1, Except.ok u) := by
  simp [get_current_user, hd, hs, hg]

/-- Elimination rule: a successful `get_current_user` passed through all
three checks. -/
lemma get_current_user_ok_elim (us : UsersCache) (tok : JWT) (now : Int)
    (u : UserInDB) (h : (get_current_user us tok now).2 = Except.ok u) :
    ∃ payload uid, jwt_decode tok SECRET_KEY now = some payload ∧
      payload.sub = some uid ∧ (get_user us uid).2 = some u ∧
      (get_current_user us tok now).1 = (get_user us uid).1 := by
  cases hd : jwt_decode tok SECRET_KEY now with
  | none => rw [get_current_user_baddecode us tok now hd] at h; exact absurd h (by simp)
  | some payload =>
    cases hs : payload.sub with
    | none =>
      rw [get_current_user_nosub us tok now payload hd hs] at h
      exact absurd h (by simp)
    | some uid =>
      cases hg : (get_user us uid).2 with
      | none =>
        rw [get_current_user_nouser us tok now payload uid hd hs hg] at h
        exact absurd h (by simp)
      | some u0 =>
        have heq := get_current_user_found us tok now payload uid u0 hd hs hg
        rw [heq] at h
        have hu : u0 = u := by simpa using h
        subst hu
        exact ⟨payload, uid, rfl, hs, hg, by rw [heq]⟩

/-- When the bearer guard resolves a user, running it again on the state it
produced yields the same state and the same user. -/
lemma get_current_user_stable (us : UsersCache) (tok : JWT) (now : Int)
    (u : UserInDB) (h : (get_current_user us tok now).2 = Except.ok u) :
    get_current_user (get_current_user us tok now).1 tok now =
      ((get_current_user us tok now).1, Except.ok u) := by
  obtain ⟨payload, uid, hd, hs, hg, hfst⟩ := get_current_user_ok_elim us tok now u h
  have hstable := get_user_stable us uid uid
  have hlook : dictGet (get_user us uid).1 uid = some u := by
    rw [← get_user_snd]; exact hg
  have hg2 : (get_user (get_user us uid).1 uid).2 = some u := by
    rw [hstable]; exact hlook
  have hfst2 : (get_user (get_user us uid).1 uid).1 = (get_user us uid).1 := by
    rw [hstable]
  rw [hfst, get_current_user_found (get_user us uid).1 tok now payload uid u hd hs hg2,
    hfst2]

/-- The first component of the active-user guard is that of the bearer
guard. -/
lemma get_current_active_user_fst (us : UsersCache) (tok : JWT) (now : Int) :
    (get_current_active_user us tok now).1 = (get_current_user us tok now).1 := by
  simp only [get_current_active_user]
  cases hg : (get_current_user us tok now).2 with
  | error e => rfl
  | ok u => by_cases hd : u.disabled <;> simp [hd]

/-- Computation rule for the active-user guard on an enabled user. -/
lemma get_current_active_user_ok (us : UsersCache) (tok : JWT) (now : Int)
    (u : UserInDB) (h : (get_current_user us tok now).2 = Except.ok u)
    (hdis : u.disabled = false) :
    (get_current_active_user us tok now).2 = Except.ok u := by
  simp only [get_current_active_user]
  rw [h]
  simp [hdis]

/-- Computation rule for the active-user guard on a disabled user. -/
lemma get_current_active_user_disabled (us : UsersCache) (tok : JWT) (now : Int)
    (u : UserInDB) (h : (get_current_user us tok now).2 = Except.ok u)
    (hdis : u.disabled = true) :
    (get_current_active_user us tok now).2 =
      Except.error { status := 400, detail := "Inactive user",
                     wwwAuthenticate := none } := by
  simp only [get_current_active_user]
  rw [h]
  simp [hdis]

/-- Computation rule for the active-user guard when the bearer guard fails. -/
lemma get_current_active_user_err (us : UsersCache) (tok : JWT) (now : Int)
    (e : HTTPEx) (h : (get_current_user us tok now).2 = Except.error e) :
    (get_current_active_user us tok now).2 = Except.error e := by
  simp only [get_current_active_user]
  rw [h]

/-- Elimination rule: a successful active-user guard means the bearer guard
succeeded on a non-disabled user. -/
lemma get_current_active_user_ok_elim (us : UsersCache) (tok : JWT) (now : Int)
    (u : UserInDB) (h : (get_current_active_user us tok now).2 = Except.ok u) :
    (get_current_user us tok now).2 = Except.ok u ∧ u.disabled = false := by
  cases hg : (get_current_user us tok now).2 with
  | error e =>
    rw [get_current_active_user_err us tok now e hg] at h
    exact absurd h (by simp)
  | ok u0 =>
    by_cases hd : u0.disabled = true
    · rw [get_current_active_user_disabled us tok now u0 hg hd] at h
      exact absurd h (by simp)
    · have hdf : u0.disabled = false := by simpa using hd
      rw [get_current_active_user_ok us tok now u0 hg hdf] at h
      have hu : u0 = u := by simpa using h
      subst hu
      exact ⟨rfl, hdf⟩

/-- Same stability for the active-user guard. -/
lemma get_current_active_user_stable (us : UsersCache) (tok : JWT) (now : Int)
    (u : UserInDB) (h : (get_current_active_user us tok now).2 = Except.ok u) :
    get_current_active_user (get_current_active_user us tok now).1 tok now =
      ((get_current_active_user us tok now).1, Except.ok u) := by
  obtain ⟨hok, hdis⟩ := get_current_active_user_ok_elim us tok now u h
  have hstable := get_current_user_stable us tok now u hok
  have h1 : (get_current_user (get_current_user us tok now).1 tok now).2 = Except.ok u := by
    rw [hstable]
  have hfst := get_current_active_user_fst us tok now
  have hfst2 := get_current_active_user_fst (get_current_user us tok now).1 tok now
  refine Prod.ext ?_ ?_
  · rw [hfst, hfst2, hstable]
  · rw [hfst]
    exact get_current_active_user_ok (get_current_user us tok now).1 tok now u h1 hdis

/-- The bearer guard leaves a nonempty user store unchanged. -/
lemma get_current_user_fst_of_ne_nil (us : UsersCache) (tok : JWT) (now : Int)
    (h : us ≠ []) : (get_current_user us tok now).1 = us := by
  cases hd : jwt_decode tok SECRET_KEY now with
  | none => rw [get_current_user_baddecode us tok now hd]
  | some payload =>
    cases hs : payload.sub with
    | none => rw [get_current_user_nosub us tok now payload hd hs]
    | some uid =>
      cases hg : (get_user us uid).2 with
      | none =>
        rw [get_current_user_nouser us tok now payload uid hd hs hg]
        exact get_user_fst_of_ne_nil us uid h
      | some u0 =>
        rw [get_current_user_found us tok now payload uid u0 hd hs hg]
        exact get_user_fst_of_ne_nil us uid h

/-- The active-user guard leaves a nonempty user store unchanged. -/
lemma get_current_active_user_fst_of_ne_nil (us : UsersCache) (tok : JWT)
    (now : Int) (h : us ≠ []) : (get_current_active_user us tok now).1 = us := by
  rw [get_current_active_user_fst]
  exact get_current_user_fst_of_ne_nil us tok now h

/-- The retry loop never makes more attempts than it has loop iterations
left. -/
lemma retryAux_attempts_le (upstream : Nat → AttemptOutcome) :
    ∀ (remaining attempt : Nat),
      (retryAux upstream attempt remaining).2.1 ≤ attempt + remaining := by
  intro remaining
  induction remaining with
  | zero => intro attempt; simp [retryAux]
  | succ r ih =>
    intro attempt
    simp only [retryAux]
    cases hu : upstream attempt with
    | response resp => simp
    | connectFail reason =>
      by_cases hr : r = 0
      · simp [hr]
      · simp only [hr, if_false]
        have h := ih (attempt + 1)
        show (retryAux upstream (attempt + 1) r).2.1 ≤ attempt + (r + 1)
        omega

/-- If the first `k` attempts fail at the connection level and attempt `k`
receives a response, the loop returns that response immediately after
`k + 1` attempts, having slept `attempt+1, ..., attempt+k` seconds. -/
lemma retryAux_success (upstream : Nat → AttemptOutcome) :
    ∀ (k attempt remaining : Nat), k < remaining →
      (∀ j, j < k → isConnectFail (upstream (attempt + j)) = true) →
      isConnectFail (upstream (attempt + k)) = false →
      retryAux upstream attempt remaining =
        (Except.ok (respOf (upstream (attempt + k))), attempt + k + 1,
         List.range' (attempt + 1) k) := by
  intro k
  induction k with
  | zero =>
    intro attempt remaining hlt _hall hk
    obtain ⟨r, rfl⟩ : ∃ r, remaining = r + 1 := ⟨remaining - 1, by omega⟩
    cases hu : upstream (attempt + 0) with
    | connectFail reason => rw [hu] at hk; simp [isConnectFail] at hk
    | response resp =>
      rw [show attempt + 0 = attempt from rfl] at hu
      simp [retryAux, hu, respOf]
  | succ k ih =>
    intro attempt remaining hlt hall hk
    obtain ⟨r, rfl⟩ : ∃ r, remaining = r + 1 := ⟨remaining - 1, by omega⟩
    have h0 : isConnectFail (upstream attempt) = true := by
      have := hall 0 (by omega)
      simpa using this
    cases hu : upstream attempt with
    | response resp => rw [hu] at h0; simp [isConnectFail] at h0
    | connectFail reason =>
      have hr : ¬ r = 0 := by omega
      have hrec := ih (attempt + 1) r (by omega)
        (fun j hj => by
          have := hall (j + 1) (by omega)
          have harith : attempt + (j + 1) = attempt + 1 + j := by omega
          rwa [harith] at this)
        (by
          have harith : attempt + (k + 1) = attempt + 1 + k := by omega
          rwa [harith] at hk)
      simp only [retryAux, hu, hr, if_false, hrec]
      refine Prod.ext ?_ (Prod.ext ?_ ?_)
      · simp only
        have harith : attempt + 1 + k = attempt + (k + 1) := by omega
        rw [harith]
      · simp only
        omega
      · simp only
        rw [List.range'_succ]

/-- If every attempt fails at the connection level, the loop exhausts all
iterations and raises 503 with the reason of the last failure, after
sleeping `attempt+1, ..., attempt+remaining-1` seconds. -/
lemma retryAux_exhaust (upstream : Nat → AttemptOutcome) :
    ∀ (remaining attempt : Nat), 0 < remaining →
      (∀ j, j < remaining → isConnectFail (upstream (attempt + j)) = true) →
      retryAux upstream attempt remaining =
        (Except.error { status := 503,
                        detail := "Service unavailable: " ++
                          failReason (upstream (attempt + (remaining - 1))),
                        wwwAuthenticate := none },
         attempt + remaining, List.range' (attempt + 1) (remaining - 1)) := by
  intro remaining
  induction remaining with
  | zero => intro attempt h; omega
  | succ r ih =>
    intro attempt _hpos hall
    have h0 : isConnectFail (upstream attempt) = true := by
      have := hall 0 (by omega)
      simpa using this
    cases hu : upstream attempt with
    | response resp => rw [hu] at h0; simp [isConnectFail] at h0
    | connectFail reason =>
      by_cases hr : r = 0
      · subst hr
        simp [retryAux, hu, failReason]
      · have hrec := ih (attempt + 1) (by omega)
          (fun j hj => by
            have := hall (j + 1) (by omega)
            have harith : attempt + (j + 1) = attempt + 1 + j := by omega
            rwa [harith] at this)
        simp only [retryAux, hu, hr, if_false, hrec]
        refine Prod.ext ?_ (Prod.ext ?_ ?_)
        · simp only
          have harith : attempt + 1 + (r - 1) = attempt + (r + 1 - 1) := by omega
          rw [harith]
        · simp only
          omega
        · simp only
          have h1 : r + 1 - 1 = r := by omega
          rw [h1]
          conv_rhs => rw [show r = (r - 1) + 1 from by omega]
          rw [List.range'_succ]

/-! ### Claim theorems -/

/-- C2: for every forward call, the retry helper makes at most `max_retries`
connection attempts; after each connection-level failure with attempts left
it sleeps `1 * attempt_number` seconds (1s, 2s, ...); on exhausting all
attempts it fails with a 503 carrying the last failure reason; and any
response actually received from upstream, whatever its status code, is
returned immediately without further attempts. -/
theorem claim_C2_retry (upstream : Nat → AttemptOutcome) (max_retries : Nat) :
    (_make_request_with_retry upstream max_retries).2.1 ≤ max_retries ∧
    (∀ k, k < max_retries →
      (∀ j, j < k → isConnectFail (upstream j) = true) →
      isConnectFail (upstream k) = false →
      _make_request_with_retry upstream max_retries =
        (Except.ok (respOf (upstream k)), k + 1, List.range' 1 k)) ∧
    (0 < max_retries →
      (∀ j, j < max_retries → isConnectFail (upstream j) = true) →
      _make_request_with_retry upstream max_retries =
        (Except.error { status := 503,
                        detail := "Service unavailable: " ++
                          failReason (upstream (max_retries - 1)),
                        wwwAuthenticate := none },
         max_retries, List.range' 1 (max_retries - 1))) := by
  refine ⟨?_, ?_, ?_⟩
  · have h := retryAux_attempts_le upstream max_retries 0
    simpa [_make_request_with_retry] using h
  · intro k hk hall hresp
    have h := retryAux_success upstream k 0 max_retries hk
      (fun j hj => by simpa using hall j hj) (by simpa using hresp)
    simpa [_make_request_with_retry] using h
  · intro hpos hall
    have h := retryAux_exhaust upstream max_retries 0 hpos
      (fun j hj => by simpa using hall j hj)
    simpa [_make_request_with_retry] using h

/-- Witness for C2 at a concrete upstream: two connection failures then a
502 response, with the default three attempts. -/
theorem claim_C2_retry_witness :
    _make_request_with_retry c2Upstream 3 =
      (Except.ok { status_code := 502, text := "bad gateway", jsonBody := none },
       3, [1, 2]) := by
  have h := (claim_C2_retry c2Upstream 3).2.1 2 (by decide) (by decide) (by decide)
  rw [h]
  decide

/-- C6: an unknown username and a known username with a wrong password both
make `authenticate_user` return `None`, and whenever `authenticate_user`
returns `None` the login route answers with the one identical 401 response
(status, detail and `WWW-Authenticate` header). -/
theorem claim_C6_indistinguishable (us : UsersCache) (name pw : String) (now : Int) :
    ((get_user us name).2 = none → (authenticate_user us name pw).2 = none) ∧
    (∀ u, (get_user us name).2 = some u →
      verify_password pw u.hashed_password = false →
      (authenticate_user us name pw).2 = none) ∧
    ((authenticate_user us name pw).2 = none →
      (login us name pw now).2 =
        Except.error { status := 401, detail := "Incorrect username or password",
                       wwwAuthenticate := some "Bearer" }) := by
  refine ⟨?_, ?_, ?_⟩
  · intro hg
    simp [authenticate_user, hg]
  · intro u hg hv
    simp [authenticate_user, hg, hv]
  · intro ha
    simp [login, ha]

/-- Witness for C6: the unknown user `nosuch` and the known user `testuser`
with a wrong password receive the very same 401 response. -/
theorem claim_C6_witness :
    (login [] "nosuch" "pw" 0).2 =
      Except.error { status := 401, detail := "Incorrect username or password",
                     wwwAuthenticate := some "Bearer" } ∧
    (login [] "testuser" "wrong" 0).2 =
      Except.error { status := 401, detail := "Incorrect username or password",
                     wwwAuthenticate := some "Bearer" } :=
  ⟨(claim_C6_indistinguishable [] "nosuch" "pw" 0).2.2 (by decide),
   (claim_C6_indistinguishable [] "testuser" "wrong" 0).2.2 (by decide)⟩

/-- C7 counterexample: the claim fails as stated. A caller-specified ttl of
0 does not override the 15-minute default (Python truthiness treats
`timedelta(0)` as unset), and a caller-specified negative ttl yields an
`expires_at` that is not strictly greater than the issuance time. -/
theorem claim_C7_counterexample :
    (create_access_token (some "testuser") 0 (some 0)).exp = 900 ∧
    (create_access_token (some "testuser") 0 (some 0)).exp ≠ 0 + 0 ∧
    (create_access_token (some "testuser") 0 (some (-60))).exp = -60 ∧
    ¬ (0 < (create_access_token (some "testuser") 0 (some (-60))).exp) := by
  decide

/-- C7 amended: an unspecified ttl yields expiry issuance + 15 minutes; a
caller-specified nonzero ttl overrides the default while a zero ttl falls
back to it; the login route issues tokens with the production default ttl
of 30 minutes; and `expires_at` is strictly greater than the issuance time
whenever the ttl is unspecified, zero, or nonnegative. -/
theorem claim_C7_token_expiry (sub : Option String) (now : Int) :
    (create_access_token sub now none).exp = now + 15 * 60 ∧
    (∀ d : Int, d ≠ 0 → (create_access_token sub now (some d)).exp = now + d) ∧
    (create_access_token sub now (some 0)).exp = now + 15 * 60 ∧
    (now < (create_access_token sub now none).exp) ∧
    (∀ d : Int, 0 ≤ d → now < (create_access_token sub now (some d)).exp) ∧
    (∀ (us : UsersCache) (name pw : String) (u : UserInDB),
      (authenticate_user us name pw).2 = some u →
      (login us name pw now).2 = Except.ok (create_access_token (some u.username)
        now (some (ACCESS_TOKEN_EXPIRE_MINUTES * 60))) ∧
      (create_access_token (some u.username) now
        (some (ACCESS_TOKEN_EXPIRE_MINUTES * 60))).exp = now + 30 * 60) := by
  refine ⟨rfl, ?_, rfl, ?_, ?_, ?_⟩
  · intro d hd
    simp [create_access_token, hd]
  · simp [create_access_token]
  · intro d hd
    by_cases h0 : d = 0
    · subst h0
      simp [create_access_token]
    · simp only [create_access_token, h0, if_false]
      omega
  · intro us name pw u ha
    refine ⟨?_, by norm_num [create_access_token, ACCESS_TOKEN_EXPIRE_MINUTES]⟩
    simp [login, ha]

/-- Witness for C7 at concrete inputs: default ttl, explicit 20-minute ttl,
and the login route for the seeded `testuser`. -/
theorem claim_C7_witness :
    (create_access_token (some "testuser") 100 none).exp = 100 + 15 * 60 ∧
    (create_access_token (some "testuser") 100 (some 1200)).exp = 100 + 1200 ∧
    (login [] "testuser" "secret" 100).2 = Except.ok (create_access_token
      (some "testuser") 100 (some (ACCESS_TOKEN_EXPIRE_MINUTES * 60))) := by
  refine ⟨(claim_C7_token_expiry (some "testuser") 100).1,
    (claim_C7_token_expiry (some "testuser") 100).2.1 1200 (by decide), ?_⟩
  have h := ((claim_C7_token_expiry (some "testuser") 100).2.2.2.2.2
    [] "testuser" "secret" userU1 (by decide)).1
  simpa using h

/-- C10: the first lookup against an uninitialized credential store
populates it with exactly the two seed users `testuser` (user id `u1`) and
`admin` (user id `u2`), both enabled; a lookup on a nonempty store never
changes it; and for every username other than the two seeds, lookups on the
empty and on the seeded store find no user. -/
theorem claim_C10_seed_invariant :
    (∀ name : String, (get_user [] name).1 = seedUsers) ∧
    seedUsers = [("testuser", { user_id := "u1", username := "testuser",
                                hashed_password := get_password_hash "secret",
                                disabled := false }),
                 ("admin", { user_id := "u2", username := "admin",
                             hashed_password := get_password_hash "admin123",
                             disabled := false })] ∧
    (∀ (us : UsersCache) (name : String), us ≠ [] → (get_user us name).1 = us) ∧
    (∀ name : String, name ≠ "testuser" → name ≠ "admin" →
      (get_user [] name).2 = none ∧ (get_user seedUsers name).2 = none) := by
  refine ⟨?_, by decide, ?_, ?_⟩
  · intro name
    simp [get_user, _initial_users]
  · intro us name h
    exact get_user_fst_of_ne_nil us name h
  · intro name h1 h2
    have h1' : ("testuser" == name) = false := by
      simpa using Ne.symm h1
    have h2' : ("admin" == name) = false := by
      simpa using Ne.symm h2
    constructor
    · simp [get_user, seedUsers, _initial_users, dictGet, h1', h2']
    · have hne : seedUsers ≠ [] := seedUsers_ne_nil
      rw [get_user_snd, get_user_fst_of_ne_nil seedUsers name hne]
      simp [seedUsers, _initial_users, dictGet, h1', h2']

/-- Witness for C10: the empty store seeds on first lookup, the seeded
store is left unchanged, and an unknown username resolves to nothing. -/
theorem claim_C10_witness :
    (get_user [] "charlie").1 = seedUsers ∧
    (get_user seedUsers "charlie").1 = seedUsers ∧
    (get_user [] "charlie").2 = none ∧
    (get_user seedUsers "charlie").2 = none := by
  refine ⟨claim_C10_seed_invariant.1 "charlie",
    claim_C10_seed_invariant.2.2.1 seedUsers "charlie" (by decide), ?_, ?_⟩
  · exact (claim_C10_seed_invariant.2.2.2 "charlie" (by decide) (by decide)).1
  · exact (claim_C10_seed_invariant.2.2.2 "charlie" (by decide) (by decide)).2

/-- Verifying a freshly issued token (signed with the configured secret,
not yet expired) against the seeded store resolves its subject. -/
lemma get_current_user_of_fresh_token (name : String) (u : UserInDB) (e t : Int)
    (hg : (get_user seedUsers name).2 = some u) (ht : t < e) :
    get_current_user seedUsers { sub := some name, exp := e, key := SECRET_KEY } t =
      (seedUsers, Except.ok u) := by
  have hd : jwt_decode { sub := some name, exp := e, key := SECRET_KEY }
      SECRET_KEY t = some { sub := some name, exp := e } := by
    unfold jwt_decode
    have hne : ¬ (({ sub := some name, exp := e, key := SECRET_KEY } : JWT).exp < t) := by
      show ¬ (e < t)
      omega
    rw [if_pos rfl, if_neg hne]
  have h := get_current_user_found seedUsers
    { sub := some name, exp := e, key := SECRET_KEY } t
    { sub := some name, exp := e } name u hd rfl hg
  rw [h, get_user_fst_of_ne_nil seedUsers name seedUsers_ne_nil]

/-- C1: for every seeded user and its correct password, login succeeds
(whether the store is still uninitialized or already seeded) and returns a
token which, verified at any time strictly before its expiry, resolves back
to the same username's stored user record. -/
theorem claim_C1_login_roundtrip :
    ∀ (name : String) (raw : RawSeedUser), (name, raw) ∈ _initial_users →
    ∀ (us : UsersCache), us = [] ∨ us = seedUsers →
    ∀ now : Int,
      ∃ tok : JWT, login us name raw.password now = (seedUsers, Except.ok tok) ∧
        ∀ t : Int, t < tok.exp →
          ∃ u : UserInDB, dictGet seedUsers name = some u ∧ u.username = name ∧
            get_current_user seedUsers tok t = (seedUsers, Except.ok u) := by
  intro name raw hmem us hus now
  simp only [_initial_users, List.mem_cons, List.not_mem_nil, or_false,
    Prod.mk.injEq] at hmem
  rcases hmem with ⟨rfl, rfl⟩ | ⟨rfl, rfl⟩ <;> rcases hus with rfl | rfl
  · refine ⟨{ sub := some "testuser", exp := now + 1800, key := SECRET_KEY }, rfl, ?_⟩
    intro t ht
    exact ⟨{ user_id := "u1", username := "testuser",
             hashed_password := get_password_hash "secret", disabled := false },
      rfl, rfl, get_current_user_of_fresh_token "testuser" _ (now + 1800) t rfl ht⟩
  · refine ⟨{ sub := some "testuser", exp := now + 1800, key := SECRET_KEY }, rfl, ?_⟩
    intro t ht
    exact ⟨{ user_id := "u1", username := "testuser",
             hashed_password := get_password_hash "secret", disabled := false },
      rfl, rfl, get_current_user_of_fresh_token "testuser" _ (now + 1800) t rfl ht⟩
  · refine ⟨{ sub := some "admin", exp := now + 1800, key := SECRET_KEY }, rfl, ?_⟩
    intro t ht
    exact ⟨{ user_id := "u2", username := "admin",
             hashed_password := get_password_hash "admin123", disabled := false },
      rfl, rfl, get_current_user_of_fresh_token "admin" _ (now + 1800) t rfl ht⟩
  · refine ⟨{ sub := some "admin", exp := now + 1800, key := SECRET_KEY }, rfl, ?_⟩
    intro t ht
    exact ⟨{ user_id := "u2", username := "admin",
             hashed_password := get_password_hash "admin123", disabled := false },
      rfl, rfl, get_current_user_of_fresh_token "admin" _ (now + 1800) t rfl ht⟩

/-- Witness for C1: `testuser` with password `secret` from the fresh store
at time 0, token verified at time 60. -/
theorem claim_C1_witness :
    login [] "testuser" "secret" 0 =
      (seedUsers, Except.ok { sub := some "testuser", exp := 1800, key := SECRET_KEY }) ∧
    get_current_user seedUsers
      { sub := some "testuser", exp := 1800, key := SECRET_KEY } 60 =
      (seedUsers, Except.ok userU1) := by
  obtain ⟨tok, hlogin, hverify⟩ := claim_C1_login_roundtrip "testuser"
    { user_id := "u1", username := "testuser", password := "secret", disabled := false }
    (by decide) [] (Or.inl rfl) 0
  have htok : tok = { sub := some "testuser", exp := 1800, key := SECRET_KEY } := by
    have h := hlogin
    rw [show login [] "testuser" "secret" 0 =
      (seedUsers, Except.ok { sub := some "testuser", exp := 1800, key := SECRET_KEY })
      from by decide] at h
    have := congrArg Prod.snd h
    simpa using this.symm
  subst htok
  obtain ⟨u, hu, _huname, hver⟩ := hverify 60 (by decide)
  have hu1 : u = userU1 := by
    rw [show dictGet seedUsers "testuser" = some userU1 from by decide] at hu
    simpa using hu.symm
  subst hu1
  exact ⟨hlogin, hver⟩

/-- C8: a disabled user presenting an otherwise-valid token (one on which
the bearer guard alone succeeds and resolves the user) is rejected by the
active-user guard, and hence by every protected route, with the 400
Inactive-user error. -/
theorem claim_C8_disabled_rejected (st : GatewayState) (tok : JWT) (now : Int)
    (u : UserInDB) (hok : (get_current_user st.users tok now).2 = Except.ok u)
    (hdis : u.disabled = true) :
    (get_current_active_user st.users tok now).2 =
      Except.error { status := 400, detail := "Inactive user", wwwAuthenticate := none } ∧
    (read_users_me st tok now).1 =
      Except.error { status := 400, detail := "Inactive user", wwwAuthenticate := none } ∧
    (∀ (upstream : Nat → AttemptOutcome) (order : OrderCreate),
      (create_order upstream order st tok now).1 =
        Except.error (GatewayError.httpEx
          { status := 400, detail := "Inactive user", wwwAuthenticate := none })) ∧
    (∀ (upstream : Nat → AttemptOutcome) (oid : String),
      (get_order upstream oid st tok now).1 =
        Except.error (GatewayError.httpEx
          { status := 400, detail := "Inactive user", wwwAuthenticate := none })) := by
  have hguard := get_current_active_user_disabled st.users tok now u hok hdis
  refine ⟨hguard, hguard, ?_, ?_⟩
  · intro upstream order
    simp [create_order, hguard]
  · intro upstream oid
    simp [get_order, hguard]

/-- Witness for C8: the disabled user `bob` with a valid token is rejected
on `GET /auth/me` and on `GET /orders/o9` with the 400 Inactive-user
error, while the bearer guard alone resolves the user. -/
theorem claim_C8_witness :
    (read_users_me stDisabled tokBob 0).1 =
      Except.error { status := 400, detail := "Inactive user", wwwAuthenticate := none } ∧
    (get_order upstream404 "o9" stDisabled tokBob 0).1 =
      Except.error (GatewayError.httpEx
        { status := 400, detail := "Inactive user", wwwAuthenticate := none }) := by
  have h := claim_C8_disabled_rejected stDisabled tokBob 0 disabledUser
    (by decide) (by decide)
  exact ⟨h.2.1, h.2.2.2 upstream404 "o9"⟩

/-- C9 counterexample: the claim fails as stated. A successful guard
invocation on a process whose credential store has not been touched yet
mutates the store: the lazy first-lookup seeding runs inside the guard, so
the store is not identical before (empty) and after (seeded). -/
theorem claim_C9_counterexample :
    (get_current_user ([] : UsersCache) tokTestuser 0).2 = Except.ok userU1 ∧
    (get_current_user ([] : UsersCache) tokTestuser 0).1 = seedUsers ∧
    (get_current_user ([] : UsersCache) tokTestuser 0).1 ≠ ([] : UsersCache) := by
  decide

/-- C9 amended: once the credential store is initialized (nonempty), the
guard mutates nothing: the bearer and active-user guards return the store
unchanged, `GET /auth/me` leaves the whole gateway state unchanged, and a
guard failure on either order route leaves the whole gateway state
unchanged; the guard never touches the response cache. The only mutation
the guard can cause is the lazy first-lookup seeding of an empty store. -/
theorem claim_C9_guard_no_mutation (st : GatewayState) (tok : JWT) (now : Int)
    (h : st.users ≠ []) :
    (get_current_user st.users tok now).1 = st.users ∧
    (get_current_active_user st.users tok now).1 = st.users ∧
    (read_users_me st tok now).2 = st ∧
    (∀ (upstream : Nat → AttemptOutcome) (order : OrderCreate) (e : HTTPEx),
      (get_current_active_user st.users tok now).2 = Except.error e →
      (create_order upstream order st tok now).2.1 = st) ∧
    (∀ (upstream : Nat → AttemptOutcome) (oid : String) (e : HTTPEx),
      (get_current_active_user st.users tok now).2 = Except.error e →
      (get_order upstream oid st tok now).2.1 = st) := by
  have h1 := get_current_user_fst_of_ne_nil st.users tok now h
  have h2 := get_current_active_user_fst_of_ne_nil st.users tok now h
  refine ⟨h1, h2, ?_, ?_, ?_⟩
  · have hrw : (read_users_me st tok now).2 =
        { st with users := (get_current_active_user st.users tok now).1 } := rfl
    rw [hrw, h2]
  · intro upstream order e he
    have hrw : (create_order upstream order st tok now).2.1 =
        { st with users := (get_current_active_user st.users tok now).1 } := by
      simp [create_order, he]
    rw [hrw, h2]
  · intro upstream oid e he
    have hrw : (get_order upstream oid st tok now).2.1 =
        { st with users := (get_current_active_user st.users tok now).1 } := by
      simp [get_order, he]
    rw [hrw, h2]

/-- Witness for C9: on the seeded state, a guard run (here with a
bad-signature token, which fails 401) changes neither the user store nor
the cache. -/
theorem claim_C9_witness :
    (get_current_user stSeeded.users { sub := none, exp := 0, key := "other" } 0).1 =
      stSeeded.users ∧
    (read_users_me stSeeded { sub := none, exp := 0, key := "other" } 0).2 = stSeeded := by
  have h := claim_C9_guard_no_mutation stSeeded
    { sub := none, exp := 0, key := "other" } 0 (by decide)
  exact ⟨h.1, h.2.2.1⟩

/-- C3 counterexample: the claim fails as stated. For an authenticated
active user, a 2xx upstream success with status 201 and a valid
`OrderStatus` body is not returned verbatim and not cached: the gateway
treats every non-200 status — 2xx included — as an error pass-through. -/
theorem claim_C3_counterexample :
    (create_order upstream201 orderCreate1 stSeeded tokTestuser 0).1 =
      Except.error (GatewayError.httpEx
        { status := 201, detail := "created-json", wwwAuthenticate := none }) ∧
    (create_order upstream201 orderCreate1 stSeeded tokTestuser 0).1 ≠
      Except.ok orderO1 ∧
    (create_order upstream201 orderCreate1 stSeeded tokTestuser 0).2.1.cache =
      stSeeded.cache := by
  decide

/-- C3 amended: for every `POST /orders` by an authenticated active user,
if the upstream response has status exactly 200 the gateway returns the
upstream `OrderStatus` body verbatim and caches it under its id; if the
upstream response has any other status (4xx, 5xx, and also 2xx other than
200), the gateway fails with that original status code and body text, and
the cache is unchanged. -/
theorem claim_C3_create_order (upstream : Nat → AttemptOutcome)
    (order : OrderCreate) (st : GatewayState) (tok : JWT) (now : Int)
    (u : UserInDB)
    (hguard : (get_current_active_user st.users tok now).2 = Except.ok u) :
    (∀ (r : HttpResp) (s : OrderStatus),
      (_make_request_with_retry upstream 3).1 = Except.ok r →
      r.status_code = 200 → r.jsonBody = some s →
      create_order upstream order st tok now =
        (Except.ok s,
         { users := (get_current_active_user st.users tok now).1,
           cache := dictInsert st.cache s.id s }, 1)) ∧
    (∀ r : HttpResp,
      (_make_request_with_retry upstream 3).1 = Except.ok r →
      r.status_code ≠ 200 →
      create_order upstream order st tok now =
        (Except.error (GatewayError.httpEx
          { status := r.status_code, detail := r.text, wwwAuthenticate := none }),
         { users := (get_current_active_user st.users tok now).1,
           cache := st.cache }, 1)) := by
  constructor
  · intro r s hr h200 hbody
    have hvia : create_order_via_http upstream order = Except.ok s := by
      simp [create_order_via_http, hr, h200, hbody]
    simp [create_order, hguard, hvia]
  · intro r hr hne
    have hvia : create_order_via_http upstream order =
        Except.error (GatewayError.httpEx
          { status := r.status_code, detail := r.text, wwwAuthenticate := none }) := by
      simp [create_order_via_http, hr, hne]
    simp [create_order, hguard, hvia]

/-- Witness for C3: a 200 upstream response is returned verbatim and cached
under its id. -/
theorem claim_C3_witness :
    create_order upstream200 orderCreate1 stSeeded tokTestuser 0 =
      (Except.ok orderO1,
       { users := seedUsers, cache := [("o1", orderO1)] }, 1) := by
  have h := (claim_C3_create_order upstream200 orderCreate1 stSeeded tokTestuser 0
    userU1 (by decide)).1
    { status_code := 200, text := "ok-json", jsonBody := some orderO1 } orderO1
    (by decide) (by decide) (by decide)
  rw [h]
  decide

/-- C4: for every `GET /orders/{id}` by an authenticated active user, a
cached id is answered from the cache without invoking the upstream
forwarder at all; an uncached id whose upstream fetch succeeds is stored in
the cache before being returned, and the repeated `GET` for the same id is
then answered from the cache with zero further forwarder invocations — so
the forwarder runs at most once for the pair of requests. -/
theorem claim_C4_read_through (upstream : Nat → AttemptOutcome) (oid : String)
    (st : GatewayState) (tok : JWT) (now : Int) (u : UserInDB)
    (hguard : (get_current_active_user st.users tok now).2 = Except.ok u) :
    (∀ s : OrderStatus, dictGet st.cache oid = some s →
      get_order upstream oid st tok now =
        (Except.ok s,
         { users := (get_current_active_user st.users tok now).1,
           cache := st.cache }, 0)) ∧
    (∀ s : OrderStatus, dictGet st.cache oid = none →
      fetch_order_status upstream = Except.ok (some s) →
      get_order upstream oid st tok now =
        (Except.ok s,
         { users := (get_current_active_user st.users tok now).1,
           cache := dictInsert st.cache oid s }, 1) ∧
      (∀ upstream2 : Nat → AttemptOutcome,
        get_order upstream2 oid
          { users := (get_current_active_user st.users tok now).1,
            cache := dictInsert st.cache oid s } tok now =
          (Except.ok s,
           { users := (get_current_active_user st.users tok now).1,
             cache := dictInsert st.cache oid s }, 0))) := by
  constructor
  · intro s hhit
    simp [get_order, hguard, hhit]
  · intro s hmiss hfetch
    constructor
    · simp [get_order, hguard, hmiss, hfetch]
    · intro upstream2
      have hstable := get_current_active_user_stable st.users tok now u hguard
      have hguard2 : (get_current_active_user
          (get_current_active_user st.users tok now).1 tok now).2 = Except.ok u := by
        rw [hstable]
      have hfst2 : (get_current_active_user
          (get_current_active_user st.users tok now).1 tok now).1 =
          (get_current_active_user st.users tok now).1 := by
        rw [hstable]
      have hhit2 := dictGet_dictInsert_self st.cache oid s
      simp [get_order, hguard2, hfst2, hhit2]

/-- Witness for C4: a first `GET /orders/o1` on an empty cache fetches and
caches; the second one is served from the cache with zero forwarder
invocations, even against an upstream that would now answer 404. -/
theorem claim_C4_witness :
    get_order upstream200 "o1" stSeeded tokTestuser 0 =
      (Except.ok orderO1, { users := seedUsers, cache := [("o1", orderO1)] }, 1) ∧
    get_order upstream404 "o1"
      { users := seedUsers, cache := [("o1", orderO1)] } tokTestuser 0 =
      (Except.ok orderO1, { users := seedUsers, cache := [("o1", orderO1)] }, 0) := by
  have h := (claim_C4_read_through upstream200 "o1" stSeeded tokTestuser 0
    userU1 (by decide)).2 orderO1 (by decide) (by decide)
  constructor
  · rw [h.1]
    decide
  · have h2 := h.2 upstream404
    rw [show ({ users := (get_current_active_user stSeeded.users tokTestuser 0).1,
                cache := dictInsert stSeeded.cache "o1" orderO1 } : GatewayState) =
        { users := seedUsers, cache := [("o1", orderO1)] } from by decide] at h2
    rw [h2]

/-- C5: for every `GET /orders/{id}` by an authenticated active user whose
id is not cached and for which upstream answers 404, the gateway fails with
404 and detail `Order not found`, the cache is left unchanged (no negative
entry), and the identical next request contacts upstream again (one more
forwarder invocation). -/
theorem claim_C5_upstream_404 (upstream : Nat → AttemptOutcome) (oid : String)
    (st : GatewayState) (tok : JWT) (now : Int) (u : UserInDB) (r : HttpResp)
    (hguard : (get_current_active_user st.users tok now).2 = Except.ok u)
    (hmiss : dictGet st.cache oid = none)
    (hresp : (_make_request_with_retry upstream 3).1 = Except.ok r)
    (h404 : r.status_code = 404) :
    get_order upstream oid st tok now =
      (Except.error (GatewayError.httpEx
        { status := 404, detail := "Order not found", wwwAuthenticate := none }),
       { users := (get_current_active_user st.users tok now).1,
         cache := st.cache }, 1) ∧
    get_order upstream oid
      { users := (get_current_active_user st.users tok now).1,
        cache := st.cache } tok now =
      (Except.error (GatewayError.httpEx
        { status := 404, detail := "Order not found", wwwAuthenticate := none }),
       { users := (get_current_active_user st.users tok now).1,
         cache := st.cache }, 1) := by
  have hfetch : fetch_order_status upstream = Except.ok none := by
    simp [fetch_order_status, hresp, h404]
  constructor
  · simp [get_order, hguard, hmiss, hfetch]
  · have hstable := get_current_active_user_stable st.users tok now u hguard
    have hguard2 : (get_current_active_user
        (get_current_active_user st.users tok now).1 tok now).2 = Except.ok u := by
      rw [hstable]
    have hfst2 : (get_current_active_user
        (get_current_active_user st.users tok now).1 tok now).1 =
        (get_current_active_user st.users tok now).1 := by
      rw [hstable]
    simp [get_order, hguard2, hfst2, hmiss, hfetch]

/-- Witness for C5: `GET /orders/o404` against a 404-answering upstream
returns the fixed 404 error twice in a row, leaving the cache empty and
contacting upstream once on each request. -/
theorem claim_C5_witness :
    get_order upstream404 "o404" stSeeded tokTestuser 0 =
      (Except.error (GatewayError.httpEx
        { status := 404, detail := "Order not found", wwwAuthenticate := none }),
       { users := seedUsers, cache := [] }, 1) ∧
    get_order upstream404 "o404" { users := seedUsers, cache := [] } tokTestuser 0 =
      (Except.error (GatewayError.httpEx
        { status := 404, detail := "Order not found", wwwAuthenticate := none }),
       { users := seedUsers, cache := [] }, 1) := by
  have h := claim_C5_upstream_404 upstream404 "o404" stSeeded tokTestuser 0
    userU1 { status_code := 404, text := "not found", jsonBody := none }
    (by decide) (by decide) (by decide) (by decide)
  constructor
  · rw [h.1]
    decide
  · have h2 := h.2
    rw [show ({ users := (get_current_active_user stSeeded.users tokTestuser 0).1,
                cache := stSeeded.cache } : GatewayState) =
        { users := seedUsers, cache := [] } from by decide] at h2
    rw [h2]
